import Mathlib

/-!
Verification development for the express-zod-openapi-typed repository.

The development shallowly embeds the core of the library:
* `zodSchemaToOpenAPISchema` (src/lib/zod-to-openapi-schema.ts): the recursive
  translator from schema nodes to OpenAPI description fragments;
* `extractParameters` (lib/extract-parameters.ts): parameter extraction;
* the validation middleware of `typed-router.ts` (request-segment phase,
  file-field check, response interception) and the error resolution chain
  with `defaultErrorHandler` (config.ts);
* the route registry and the path assembly of `generateOpenAPISpec`
  (swagger.ts).

JavaScript objects are modelled as insertion-ordered association lists of
string keys to JSON-like values; property assignment keeps the position of
an existing key and appends a fresh key, matching JS object semantics.
-/

namespace EZOT

/-- JSON-like runtime values (JS values seen by the library). -/
inductive JVal : Type where
  | str (s : String)
  | num (n : Int)
  | bool (b : Bool)
  | null
  | arr (xs : List JVal)
  | obj (fields : List (String × JVal))

/-- A description-document fragment: the mutable JS object the translator
builds, as an insertion-ordered association list. -/
abbrev Frag := List (String × JVal)

/-- JS property assignment `o[k] = v`: update in place if the key exists
(keeping its position), otherwise append. -/
def setKey : Frag → String → JVal → Frag
  | [], k, v => [(k, v)]
  | (k', v') :: t, k, v =>
      if k' = k then (k, v) :: t else (k', v') :: setKey t k v

/-- JS `delete o[k]`. -/
def removeKey (f : Frag) (k : String) : Frag :=
  f.filter (fun kv => kv.1 ≠ k)

/-- JS property read `o[k]` (first binding wins, as JS objects have unique keys). -/
def lookupKey : Frag → String → Option JVal
  | [], _ => none
  | (k', v) :: t, k => if k' = k then some v else lookupKey t k

/-- JS `typeof` on our value model (used for `ZodLiteral`). -/
def jtypeof : JVal → String
  | .str _ => "string"
  | .num _ => "number"
  | .bool _ => "boolean"
  | .null => "object"
  | .arr _ => "object"
  | .obj _ => "object"

/-- String refinement checks attached to a `ZodString` node (`def.checks`). -/
inductive StringCheck : Type where
  | uuid | email | url | datetime | date | time
  | min (value : Nat)
  | max (value : Nat)
  | length (value : Nat)
  | regex (source : String)
  | otherCheck (kind : String)
  deriving Repr, DecidableEq

/-- Numeric refinement checks attached to a `ZodNumber` node (`def.checks`). -/
inductive NumCheck : Type where
  | int
  | min (value : Int) (inclusive : Bool)
  | max (value : Int) (inclusive : Bool)
  | multipleOf (value : Int)
  | otherCheck (kind : String)
  deriving Repr, DecidableEq

mutual
/-- A zod schema node: its (optional) description together with its kind
(`schema.description || def.description` and `def.typeName` in the source). -/
inductive SchemaNode : Type where
  | mk (desc : Option String) (kind : SchemaKind)

/-- The kind tag and kind-specific payload of a schema node, covering every
case recognized by `zodSchemaToOpenAPISchema`; `zother` stands for any kind
tag not recognized by the translator (the `default:` arm). -/
inductive SchemaKind : Type where
  | zoptional (inner : SchemaNode)
  | znullable (inner : SchemaNode)
  | znullish (inner : SchemaNode)
  | zdefault (defaultValue : Option JVal) (inner : SchemaNode)
  | zeffects (inner : SchemaNode)
  | zbranded (inner : SchemaNode)
  | zreadonly (inner : SchemaNode)
  | zcatch (inner : SchemaNode)
  | zpipeline (out : SchemaNode)
  | zlazy
  | zpromise (inner : SchemaNode)
  | zstring (checks : List StringCheck)
  | znumber (checks : List NumCheck)
  | zboolean
  | zarray (elem : SchemaNode) (minLength maxLength : Option Nat)
  | zobject (fields : List (String × SchemaNode))
  | zenum (values : List String)
  | znativeEnum (values : List JVal)
  | zliteral (value : JVal)
  | zunion (options : List SchemaNode)
  | zintersection (left right : SchemaNode)
  | zrecord (valueType : SchemaNode)
  | ztuple (items : List SchemaNode)
  | zdate
  | zbigint
  | znull
  | zundefined
  | zvoid
  | znever
  | zmap
  | zset (valueType : Option SchemaNode)
  | zdiscriminatedUnion (discriminator : Option String) (options : List SchemaNode)
  | zfunction
  | zany
  | zunknown
  | zother (tag : String)
end

/-- The node's description (`schema.description || def.description`). -/
def SchemaNode.desc : SchemaNode → Option String
  | .mk d _ => d

/-- The node's kind. -/
def SchemaNode.kind : SchemaNode → SchemaKind
  | .mk _ k => k

mutual
/-- The external schema library's optionality predicate (`.isOptional()`),
modelled from zod semantics: a schema is optional when parsing `undefined`
succeeds. Consumed by the object-`required` computation and by
`extractParameters`. -/
def isOptional : SchemaNode → Bool
  | .mk _ k => isOptionalKind k

def isOptionalKind : SchemaKind → Bool
  | .zoptional _ => true
  | .znullish _ => true
  | .zdefault _ _ => true
  | .zcatch _ => true
  | .znullable i => isOptional i
  | .zreadonly i => isOptional i
  | .zbranded i => isOptional i
  | .zeffects i => isOptional i
  | .zpipeline i => isOptional i
  | .zany => true
  | .zunknown => true
  | .zundefined => true
  | .zvoid => true
  | _ => false
end

/-- `if (description) result.description = description` on a fragment. -/
def attachDesc (d : Option String) (f : Frag) : Frag :=
  match d with
  | some s => setKey f "description" (.str s)
  | none => f

/-- One iteration of the `ZodString` check loop. -/
def applyStringCheck (f : Frag) : StringCheck → Frag
  | .uuid => setKey f "format" (.str "uuid")
  | .email => setKey f "format" (.str "email")
  | .url => setKey f "format" (.str "uri")
  | .datetime => setKey f "format" (.str "date-time")
  | .date => setKey f "format" (.str "date")
  | .time => setKey f "format" (.str "time")
  | .min v => setKey f "minLength" (.num v)
  | .max v => setKey f "maxLength" (.num v)
  | .length v => setKey (setKey f "minLength" (.num v)) "maxLength" (.num v)
  | .regex src => setKey f "pattern" (.str src)
  | .otherCheck _ => f

/-- One iteration of the `ZodNumber` check loop. -/
def applyNumCheck (f : Frag) : NumCheck → Frag
  | .int => setKey f "type" (.str "integer")
  | .min v incl =>
      let f := setKey f "minimum" (.num v)
      if incl then f else setKey f "exclusiveMinimum" (.bool true)
  | .max v incl =>
      let f := setKey f "maximum" (.num v)
      if incl then f else setKey f "exclusiveMaximum" (.bool true)
  | .multipleOf v => setKey f "multipleOf" (.num v)
  | .otherCheck _ => f

/-- The `required` list collected while translating an object schema:
fields whose `isOptional()` reports false, in declaration order. -/
def requiredKeys (fields : List (String × SchemaNode)) : List String :=
  (fields.filter (fun p => !(isOptional p.2))).map (fun p => p.1)

mutual
/-- Worker of `zodSchemaToOpenAPISchema` on a present schema value:
the full dispatch of src/lib/zod-to-openapi-schema.ts. Wrapper kinds return
early after recursing into their inner node; `ZodPromise` returns the inner
translation without attaching the outer description (the early `return` in
the source skips the final description attachment); all remaining kinds
build a fragment and then attach the description. -/
def translateNode : SchemaNode → Frag
  | .mk d k => translateKind d k

def translateKind (d : Option String) : SchemaKind → Frag
  | .zoptional inner => attachDesc d (translateNode inner)
  | .znullable inner => attachDesc d (setKey (translateNode inner) "nullable" (.bool true))
  | .znullish inner => attachDesc d (setKey (translateNode inner) "nullable" (.bool true))
  | .zdefault dv inner =>
      let f := translateNode inner
      let f := match dv with
        | some v => setKey f "default" v
        | none => f
      attachDesc d f
  | .zeffects inner => attachDesc d (translateNode inner)
  | .zbranded inner => attachDesc d (translateNode inner)
  | .zreadonly inner => attachDesc d (setKey (translateNode inner) "readOnly" (.bool true))
  | .zcatch inner => attachDesc d (translateNode inner)
  | .zpipeline outNode => attachDesc d (translateNode outNode)
  | .zlazy => attachDesc d [("type", .str "object")]
  | .zpromise inner => translateNode inner
  | .zstring checks => attachDesc d (checks.foldl applyStringCheck [("type", .str "string")])
  | .znumber checks => attachDesc d (checks.foldl applyNumCheck [("type", .str "number")])
  | .zboolean => attachDesc d [("type", .str "boolean")]
  | .zarray elem minL maxL =>
      let f : Frag := [("type", .str "array"), ("items", .obj (translateNode elem))]
      let f := match minL with
        | some v => setKey f "minItems" (.num v)
        | none => f
      let f := match maxL with
        | some v => setKey f "maxItems" (.num v)
        | none => f
      attachDesc d f
  | .zobject fields =>
      let f : Frag := [("type", .str "object"), ("properties", .obj (translateProps fields))]
      let req := requiredKeys fields
      let f := if req.isEmpty then f else setKey f "required" (.arr (req.map .str))
      attachDesc d f
  | .zenum vs => attachDesc d [("type", .str "string"), ("enum", .arr (vs.map .str))]
  | .znativeEnum vs => attachDesc d [("type", .str "string"), ("enum", .arr vs)]
  | .zliteral v => attachDesc d [("type", .str (jtypeof v)), ("enum", .arr [v])]
  | .zunion opts => attachDesc d [("oneOf", .arr (translateList opts))]
  | .zintersection l r =>
      attachDesc d [("allOf", .arr [.obj (translateNode l), .obj (translateNode r)])]
  | .zrecord vt =>
      attachDesc d [("type", .str "object"), ("additionalProperties", .obj (translateNode vt))]
  | .ztuple items =>
      let f : Frag := [("type", .str "array")]
      let f := if items.isEmpty then f else
        setKey (setKey (setKey f "prefixItems" (.arr (translateList items)))
          "minItems" (.num items.length)) "maxItems" (.num items.length)
      attachDesc d f
  | .zdate => attachDesc d [("type", .str "string"), ("format", .str "date-time")]
  | .zbigint => attachDesc d [("type", .str "integer"), ("format", .str "int64")]
  | .znull => attachDesc d [("type", .str "null")]
  | .zundefined => attachDesc d [("type", .str "null")]
  | .zvoid => attachDesc d [("type", .str "null")]
  | .znever => attachDesc d [("not", .obj [])]
  | .zmap => attachDesc d [("type", .str "object"), ("additionalProperties", .bool true)]
  | .zset vt =>
      let f : Frag := [("type", .str "array"), ("uniqueItems", .bool true)]
      let f := match vt with
        | some n => setKey f "items" (.obj (translateNode n))
        | none => f
      attachDesc d f
  | .zdiscriminatedUnion disc opts =>
      let f : Frag := [("oneOf", .arr (translateList opts))]
      let f := match disc with
        | some dn => setKey f "discriminator" (.obj [("propertyName", .str dn)])
        | none => f
      attachDesc d f
  | .zfunction =>
      attachDesc d [("type", .str "object"), ("description", .str (d.getD "Function type"))]
  | .zany => attachDesc d []
  | .zunknown => attachDesc d []
  | .zother _ => attachDesc d [("type", .str "string")]

def translateList : List SchemaNode → List JVal
  | [] => []
  | n :: t => .obj (translateNode n) :: translateList t

def translateProps : List (String × SchemaNode) → Frag
  | [] => []
  | (k, n) :: t => (k, .obj (translateNode n)) :: translateProps t
end

/-- `zodSchemaToOpenAPISchema`: a falsy (absent) input yields `undefined`;
otherwise the node is translated. Total by construction. -/
def zodSchemaToOpenAPISchema (schema : Option SchemaNode) : Option Frag :=
  schema.map translateNode

/-- Generic association-list lookup for string-keyed JS records. -/
def alookup {α : Type} : List (String × α) → String → Option α
  | [], _ => none
  | (k', v) :: t, k => if k' = k then some v else alookup t k

/-- Lookup in the per-status response schema record (`schema.response![code]`). -/
def lookupStatus {α : Type} : List (Nat × α) → Nat → Option α
  | [], _ => none
  | (c, v) :: t, code => if c = code then some v else lookupStatus t code

/-- One structured issue inside a zod validation error. -/
structure ZodIssue : Type where
  code : String
  message : String
  path : List String
  deriving DecidableEq

/-- A zod validation error (`ZodError`), as the list of its issues. -/
structure ZodError : Type where
  issues : List ZodIssue
  deriving DecidableEq

/-- Order-preserving de-duplication of the flattened error keys. -/
def dedupKeys (l : List String) : List String :=
  l.foldl (fun acc k => if acc.contains k then acc else acc ++ [k]) []

/-- `error.flatten().fieldErrors`: messages grouped by the first path element. -/
def flattenFieldErrors (e : ZodError) : Frag :=
  (dedupKeys (e.issues.filterMap (fun i => i.path.head?))).map
    (fun k => (k, JVal.arr ((e.issues.filter (fun i => i.path.head? = some k)).map
      (fun i => JVal.str i.message))))

/-- The request object: the four validated segments plus the upload
middleware's captured files (`req.files`, keyed by field name with the
captured count, and `req.file` with its field name). -/
structure Req : Type where
  body : JVal
  query : JVal
  params : JVal
  headers : Frag
  filesMap : List (String × Nat)
  fileField : Option String

/-- The response transport state: the express status code and the bodies
handed to the original (unwrapped) emission primitive, in order. -/
structure Res : Type where
  statusCode : Nat
  transmitted : List JVal

/-- The original `res.status` primitive. -/
def plainStatus (code : Nat) (r : Res) : Res :=
  { r with statusCode := code }

/-- The original `res.json` primitive: the body reaches the transport. -/
def plainJson (body : JVal) (r : Res) : Res :=
  { r with transmitted := r.transmitted ++ [body] }

/-- The external schema library's capability surface for one schema value
(spec section 6): an introspectable node plus a parse operation reporting
success-with-value or failure-with-structured-errors. -/
structure ZodT : Type where
  node : SchemaNode
  parse : JVal → Except ZodError JVal

/-- Per-field file declaration (`FileFieldConfig`); `required` absent in TS
is falsy, so it is a plain Bool here, and a `maxCount` of 0 is falsy. -/
structure FileFieldConfig : Type where
  maxCount : Option Nat
  required : Bool
  description : Option String

/-- The runtime contract bound to one route (`RouteSchema`), restricted to
the fields the validation middleware and document assembler read. -/
structure RouteSchema : Type where
  body : Option ZodT
  querystring : Option ZodT
  params : Option ZodT
  headers : Option ZodT
  response : Option (List (Nat × ZodT))
  files : Option (List (String × FileFieldConfig))
  hide : Bool

/-- The request segments a `RequestValidationError` can be tagged with. -/
inductive Seg : Type where
  | body | querystring | params | headers
  deriving DecidableEq

/-- The segment-specific messages of `defaultErrorHandler`. -/
def segMessage : Seg → String
  | .body => "Body validation failed."
  | .querystring => "Query string validation failed."
  | .params => "Params validation failed."
  | .headers => "Headers validation failed."

/-- The classified errors of the library: `RequestValidationError`
(segment tag, zod error, request) and `ResponseValidationError`
(status code, zod error, request, offending body). -/
inductive VError : Type where
  | request (segment : Seg) (err : ZodError) (req : Req)
  | response (statusCode : Nat) (err : ZodError) (req : Req) (body : JVal)

/-- The structured JSON error body built by `defaultErrorHandler`. -/
def errBody (message : String) (err : ZodError) : JVal :=
  .obj [("message", .str message), ("status", .str "error"),
        ("errors", .obj (flattenFieldErrors err))]

/-- What `defaultErrorHandler` (config.ts) emits for a classified error:
status 400 with a segment-specific message for a `RequestValidationError`,
status 500 with a generic message for a `ResponseValidationError`. -/
def defaultEmission : VError → Nat × JVal
  | .request seg err _ => (400, errBody (segMessage seg) err)
  | .response _ err _ _ =>
      (500, errBody "Internal error: server response does not match expected schema." err)

/-- `defaultErrorHandler` applied through the plain response primitives
(`res.status(...).json(...)`). -/
def defaultErrorHandler (e : VError) (_ : Req) (res : Res) : Res :=
  plainJson (defaultEmission e).2 (plainStatus (defaultEmission e).1 res)

/-- An express error handler, as seen by the middleware. -/
abbrev EHandler := VError → Req → Res → Res

/-- The resolution chain repeated at every failure site of
`createValidationMiddleware`: the per-route handler if bound, else the
global handler if set, else `next(error)` — which, under default
resolution (spec section 4.4), delivers the classified error to the
built-in `defaultErrorHandler` error layer. -/
def dispatchError (routeH globalH : Option EHandler) (e : VError) (req : Req) (res : Res) : Res :=
  match routeH with
  | some h => h e req res
  | none =>
    match globalH with
    | some g => g e req res
    | none => defaultErrorHandler e req res

/-- The `missingFiles` list of the files-check: every declared file field
contributes its violations (required-but-absent, and captured count above
`maxCount`) in declaration order. JS truthiness: `req.files[field]` is
truthy whenever the entry is present, and a `maxCount` of 0 disables the
count check. -/
def fileViolations (cfgs : List (String × FileFieldConfig)) (req : Req) : List String :=
  cfgs.foldl (fun acc entry =>
    let fn := entry.1
    let cfg := entry.2
    let hasFile := (req.fileField = some fn) || (alookup req.filesMap fn).isSome
    let acc := if cfg.required && !hasFile then acc ++ [fn] else acc
    match cfg.maxCount with
    | some m =>
        if m ≠ 0 then
          match alookup req.filesMap fn with
          | some cnt =>
              if m < cnt then acc ++ [fn ++ " (max " ++ toString m ++ " files)"] else acc
          | none => acc
        else acc
    | none => acc) []

/-- The single synthetic zod error built from the collected file
violations: one `custom` issue on path `["files"]` whose message joins
every violation. -/
def filesZodError (missing : List String) : ZodError :=
  ⟨[⟨"custom", "Missing required files: " ++ String.intercalate ", " missing, ["files"]⟩]⟩

/-- Outcome of the request-segment phase of the middleware: either an
error handler was invoked (the middleware returned its emission), or
`next()` ran with the updated request. -/
inductive ReqPhase : Type where
  | errored (res : Res)
  | passed (req : Req)

/-- Fields of a parsed JS object value. -/
def jfields : JVal → Frag
  | .obj f => f
  | _ => []

/-- `Object.assign(target, source)`: each source field is assigned into the
target in order, overwriting keys it already has and appending fresh ones. -/
def objAssign (target source : Frag) : Frag :=
  source.foldl (fun t kv => setKey t kv.1 kv.2) target

/-- Headers step: on success the parsed fields are merged into the existing
headers via `Object.assign(req.headers, parsed)` — not a replacement. -/
def stepHeaders (s : RouteSchema) (rH gH : Option EHandler) (req : Req) (res : Res) : ReqPhase :=
  match s.headers with
  | none => .passed req
  | some z =>
    match z.parse (.obj req.headers) with
    | .error e => .errored (dispatchError rH gH (.request .headers e req) req res)
    | .ok v => .passed { req with headers := objAssign req.headers (jfields v) }

/-- Params step: on success `req.params` is replaced with the parsed value. -/
def stepParams (s : RouteSchema) (rH gH : Option EHandler) (req : Req) (res : Res) : ReqPhase :=
  match s.params with
  | none => stepHeaders s rH gH req res
  | some z =>
    match z.parse req.params with
    | .error e => .errored (dispatchError rH gH (.request .params e req) req res)
    | .ok v => stepHeaders s rH gH { req with params := v } res

/-- Query step: on success `req.query` is replaced with the parsed value. -/
def stepQuery (s : RouteSchema) (rH gH : Option EHandler) (req : Req) (res : Res) : ReqPhase :=
  match s.querystring with
  | none => stepParams s rH gH req res
  | some z =>
    match z.parse req.query with
    | .error e => .errored (dispatchError rH gH (.request .querystring e req) req res)
    | .ok v => stepParams s rH gH { req with query := v } res

/-- Body step: on success `req.body` is replaced with the parsed value. -/
def stepBody (s : RouteSchema) (rH gH : Option EHandler) (req : Req) (res : Res) : ReqPhase :=
  match s.body with
  | none => stepQuery s rH gH req res
  | some z =>
    match z.parse req.body with
    | .error e => .errored (dispatchError rH gH (.request .body e req) req res)
    | .ok v => stepQuery s rH gH { req with body := v } res

/-- The request phase of `createValidationMiddleware`: the files-check runs
first and short-circuits with one classified error when any violation was
collected (tagged segment `body`, issue path `["files"]`); then body,
query, params and headers are validated in order. -/
def runRequestPhase (s : RouteSchema) (rH gH : Option EHandler) (req : Req) (res : Res) : ReqPhase :=
  match s.files with
  | some cfgs =>
    let miss := fileViolations cfgs req
    if miss.isEmpty then stepBody s rH gH req res
    else .errored (dispatchError rH gH (.request .body (filesZodError miss) req) req res)
  | none => stepBody s rH gH req res

/-- State of the armed response interceptor: the remembered status code
(the middleware-local `currentStatusCode`) and the transport state. -/
structure InterceptSt : Type where
  current : Nat
  res : Res

/-- Arming the interceptor: `let currentStatusCode = 200`. -/
def armInterceptor (res : Res) : InterceptSt :=
  ⟨200, res⟩

/-- The wrapped `res.status`: remembers the code and forwards to the
original primitive. -/
def wrappedStatus (code : Nat) (st : InterceptSt) : InterceptSt :=
  ⟨code, plainStatus code st.res⟩

/-- An error handler as invoked from the response interceptor (it receives
the response object whose primitives are the wrapped ones). -/
abbrev RespHandler := VError → InterceptSt → InterceptSt

/-- The wrapped `res.json`: looks up the schema registered for the
remembered status code; no schema means the body passes through to the
original primitive unchecked; a failing parse builds a
`ResponseValidationError` and runs the resolution chain instead of
emitting. Default resolution re-enters the wrapped primitives
(`res.status(500).json(errorBody)` inside `defaultErrorHandler`), so its
re-entry depth is bounded by `fuel`; a run that exhausts the fuel has
emitted nothing, mirroring the non-terminating re-entry of the source. -/
def wrappedJson (rs : List (Nat × ZodT)) (rH gH : Option RespHandler) (req : Req) :
    Nat → InterceptSt → JVal → InterceptSt
  | fuel, st, body =>
    match lookupStatus rs st.current with
    | none => ⟨st.current, plainJson body st.res⟩
    | some z =>
      match z.parse body with
      | .ok _ => ⟨st.current, plainJson body st.res⟩
      | .error zerr =>
        let e := VError.response st.current zerr req body
        match rH with
        | some h => h e st
        | none =>
          match gH with
          | some g => g e st
          | none =>
            match fuel with
            | 0 => st
            | n + 1 =>
              wrappedJson rs rH gH req n
                (wrappedStatus (defaultEmission e).1 st) (defaultEmission e).2

/-- One registered route: method, path template and its contract. -/
structure RouteMeta : Type where
  method : String
  path : String
  schema : RouteSchema

/-- The two artifacts produced by route declaration: the process-wide
`routesMetadata` registry (read by document generation) and the express
router's installed layers, each carrying the contract its validation
middleware was bound to. -/
structure RouterSt : Type where
  metadata : List RouteMeta
  installed : List RouteMeta

/-- A fresh typed router. -/
def emptyRouter : RouterSt :=
  ⟨[], []⟩

/-- `registerRoute`: the contract is pushed to the registry unless hidden,
and the validation middleware is installed on the express router
unconditionally. -/
def registerRoute (st : RouterSt) (method path : String) (schema : RouteSchema) : RouterSt :=
  { metadata := if schema.hide then st.metadata else st.metadata ++ [⟨method, path, schema⟩],
    installed := st.installed ++ [⟨method, path, schema⟩] }

/-- One extracted parameter of the generated document. -/
structure ParameterDescriptor : Type where
  name : String
  location : String
  required : Bool
  schema : Frag
  description : Option String

/-- `extractParameters` (lib/extract-parameters.ts): absent or non-object
schemas yield no parameters; each object field becomes one parameter,
`required` is unconditionally true for path parameters and the inverted
optionality otherwise, and a hoisted description is moved off the
translated fragment onto the parameter. -/
def extractParameters (schema : Option ZodT) (paramType : String) : List ParameterDescriptor :=
  match schema with
  | none => []
  | some z =>
    match z.node with
    | .mk _ (.zobject fields) =>
        fields.map (fun kv =>
          { name := kv.1,
            location := paramType,
            required := if paramType = "path" then true else !(isOptional kv.2),
            schema := removeKey (translateNode kv.2) "description",
            description := kv.2.desc })
    | _ => []

/-- The colon-to-bracket rewrite of `generateOpenAPISpec`, turning `/:name`
into `/{name}` while scanning left to right; a `/:` followed by no name
character is not a match. Structured with a fuel argument (each step
consumes at least one character, so a fuel of the input length is always
enough and the fuel-exhausted arm is unreachable from `rewritePath`). -/
def rewriteSegs : Nat → List Char → List Char
  | 0, l => l
  | _ + 1, [] => []
  | fuel + 1, '/' :: ':' :: rest =>
    let seg := rest.takeWhile (fun d => d ≠ '/')
    if seg.isEmpty then '/' :: rewriteSegs fuel (':' :: rest)
    else '/' :: '{' :: (seg ++ '}' :: rewriteSegs fuel (rest.dropWhile (fun d => d ≠ '/')))
  | fuel + 1, c :: rest => c :: rewriteSegs fuel rest

/-- Path-template rewrite on strings. -/
def rewritePath (s : String) : String :=
  ⟨rewriteSegs s.data.length s.data⟩

/-- The path-level content of the generated document: for every registered
contract, the bracket-notation path key and the parameters extracted from
its params (path), querystring (query) and headers (header) schemas, in
registry order (`generateOpenAPISpec` of swagger.ts, restricted to the path
keys and parameters the claims are about). -/
def generateOpenAPISpecPaths (basePath : String) (metadata : List RouteMeta) :
    List (String × List ParameterDescriptor) :=
  metadata.map (fun m =>
    (rewritePath (basePath ++ m.path),
     extractParameters m.schema.params "path" ++ extractParameters m.schema.querystring "query"
       ++ extractParameters m.schema.headers "header"))

/-! ### Wrapper stacks (for the translator invariance property) -/

/-- One optional/nullable wrapper layer, with the description the layer may
carry. -/
inductive WrapLayer : Type where
  | wopt (desc : Option String)
  | wnull (desc : Option String)

/-- Wrap a node in one layer. -/
def applyWrap (w : WrapLayer) (n : SchemaNode) : SchemaNode :=
  match w with
  | .wopt d => .mk d (.zoptional n)
  | .wnull d => .mk d (.znullable n)

/-- Stack a list of wrapper layers onto a node (head outermost). -/
def stackWrappers (ws : List WrapLayer) (n : SchemaNode) : SchemaNode :=
  match ws with
  | [] => n
  | w :: t => applyWrap w (stackWrappers t n)

/-- The kind-derived fields of a fragment: everything except the
display/annotation fields `nullable` and `description` that the
optional/nullable wrapper layers write. -/
def stripDisplayFields (f : Frag) : Frag :=
  f.filter (fun kv => kv.1 ≠ "nullable" && kv.1 ≠ "description")

/-! ### Concrete fixtures used by witnesses and counterexamples -/

/-- A concrete structured zod error. -/
def err1 : ZodError :=
  ⟨[⟨"custom", "bad", ["f"]⟩]⟩

/-- A schema value whose parse always fails with the given error. -/
def zFail (e : ZodError) : ZodT :=
  ⟨.mk none (.zstring []), fun _ => .error e⟩

/-- The error zod reports for `{success: "yes"}` against `{success: boolean}`. -/
def zerrSuccess : ZodError :=
  ⟨[⟨"invalid_type", "Expected boolean, received string", ["success"]⟩]⟩

/-- The schema `z.object({success: z.boolean()})` of the spec's examples. -/
def zSuccessBool : ZodT :=
  ⟨.mk none (.zobject [("success", .mk none .zboolean)]), fun v =>
    match v with
    | .obj [("success", .bool b)] => .ok (.obj [("success", .bool b)])
    | _ => .error zerrSuccess⟩

/-- A bare request. -/
def req0 : Req :=
  ⟨.null, .null, .null, [], [], none⟩

/-- A fresh response transport. -/
def res0 : Res :=
  ⟨200, []⟩

/-- A contract declaring nothing. -/
def emptySchema : RouteSchema :=
  ⟨none, none, none, none, none, none, false⟩

/-- A headers schema that accepts anything and strips every key
(parsed value: the empty object). -/
def zHeadersEmpty : ZodT :=
  ⟨.mk none (.zobject []), fun _ => .ok (.obj [])⟩

/-- A contract declaring only the stripping headers schema. -/
def hdrSchema : RouteSchema :=
  { emptySchema with headers := some zHeadersEmpty }

/-- A request carrying one raw header the headers schema does not declare. -/
def reqHdr : Req :=
  ⟨.null, .null, .null, [("x-extra", .str "1")], [], none⟩

/-- The field `id`, marked optional, of the round-trip example. -/
def idFieldNode : SchemaNode :=
  .mk none (.zoptional (.mk none (.zstring [])))

/-- `params = z.object({id: z.string().optional()})`. -/
def itemsParams : ZodT :=
  ⟨.mk none (.zobject [("id", idFieldNode)]), fun v => .ok v⟩

/-- The contract of the `/items/:id` round-trip example. -/
def itemsSchema : RouteSchema :=
  { emptySchema with params := some itemsParams }

/-- A hidden contract whose body schema rejects everything. -/
def hiddenFailSchema : RouteSchema :=
  { emptySchema with hide := true, body := some (zFail err1) }

/-- A contract whose body schema rejects everything. -/
def bodyFailSchema : RouteSchema :=
  { emptySchema with body := some (zFail err1) }

/-- Two declared file fields: a required `avatar` and a `docs` field capped
at one file. -/
def filesCfgW : List (String × FileFieldConfig) :=
  [("avatar", ⟨none, true, none⟩), ("docs", ⟨some 1, false, none⟩)]

/-- A contract declaring only the two file fields. -/
def filesSchemaW : RouteSchema :=
  { emptySchema with files := some filesCfgW }

/-- A request with no `avatar` upload and three captured `docs` files. -/
def reqFilesW : Req :=
  ⟨.null, .null, .null, [], [("docs", 3)], none⟩

/-- A response record declaring a schema for status 200 only. -/
def rs200 : List (Nat × ZodT) :=
  [(200, zSuccessBool)]

/-- A response record declaring a rejecting schema for status 500 only. -/
def rs500 : List (Nat × ZodT) :=
  [(500, zFail err1)]

/-- The non-conforming body `{success: "yes"}` of the spec's example. -/
def badBody : JVal :=
  .obj [("success", .str "yes")]

/-- The body `{foo: 1}` of the unregistered-status example. -/
def fooBody : JVal :=
  .obj [("foo", .num 1)]

/-- A schema value whose parse returns a fixed value. -/
def zConst (v : JVal) : ZodT :=
  ⟨.mk none (.zstring []), fun _ => .ok v⟩

/-- A contract declaring all four request segments, each parser returning a
fixed parsed value. -/
def fullSchema : RouteSchema :=
  ⟨some (zConst (.str "B")), some (zConst (.str "Q")), some (zConst (.str "P")),
   some (zConst (.obj [("h", .str "H")])), none, none, false⟩

/-- A response-phase error handler that leaves the state unchanged. -/
def idRespHandler : RespHandler :=
  fun _ st => st

/-- A schema value whose parse accepts every body unchanged. -/
def zAcceptAll : ZodT :=
  ⟨.mk none .zany, fun v => .ok v⟩

/-- A response record declaring the example 200 schema together with an
accepting schema for status 500. -/
def rs200and500 : List (Nat × ZodT) :=
  [(200, zSuccessBool), (500, zAcceptAll)]

/-! ## Helper lemmas -/

theorem filter_setKey_false (p : String × JVal → Bool) (f : Frag) (k : String) (v : JVal)
    (hk : ∀ w, p (k, w) = false) :
    (setKey f k v).filter p = f.filter p := by
  induction f with
  | nil => simp [setKey, hk]
  | cons kv t ih =>
    obtain ⟨k', v'⟩ := kv
    by_cases h : k' = k
    · subst h
      simp [setKey, List.filter_cons, hk]
    · simp [setKey, h, List.filter_cons, ih]

theorem strip_setKey_nullable (f : Frag) (v : JVal) :
    stripDisplayFields (setKey f "nullable" v) = stripDisplayFields f :=
  filter_setKey_false _ f _ v (by intro w; simp)

theorem strip_setKey_description (f : Frag) (v : JVal) :
    stripDisplayFields (setKey f "description" v) = stripDisplayFields f :=
  filter_setKey_false _ f _ v (by intro w; simp)

theorem strip_attachDesc (d : Option String) (f : Frag) :
    stripDisplayFields (attachDesc d f) = stripDisplayFields f := by
  cases d with
  | none => rfl
  | some s => exact strip_setKey_description f _

theorem wrappedJson_noSchema (rs : List (Nat × ZodT)) (rH gH : Option RespHandler)
    (req : Req) (fuel : Nat) (st : InterceptSt) (body : JVal)
    (h : lookupStatus rs st.current = none) :
    wrappedJson rs rH gH req fuel st body = ⟨st.current, plainJson body st.res⟩ := by
  conv_lhs => rw [wrappedJson]
  rw [h]

theorem wrappedJson_okBody (rs : List (Nat × ZodT)) (rH gH : Option RespHandler)
    (req : Req) (fuel : Nat) (st : InterceptSt) (body v : JVal) (z : ZodT)
    (h1 : lookupStatus rs st.current = some z) (h2 : z.parse body = .ok v) :
    wrappedJson rs rH gH req fuel st body = ⟨st.current, plainJson body st.res⟩ := by
  conv_lhs => rw [wrappedJson]
  rw [h1]
  simp [h2]

theorem wrappedJson_failRoute (rs : List (Nat × ZodT)) (h : RespHandler)
    (gH : Option RespHandler) (req : Req) (fuel : Nat) (st : InterceptSt) (body : JVal)
    (z : ZodT) (err : ZodError)
    (h1 : lookupStatus rs st.current = some z) (h2 : z.parse body = .error err) :
    wrappedJson rs (some h) gH req fuel st body =
      h (.response st.current err req body) st := by
  conv_lhs => rw [wrappedJson]
  rw [h1]
  simp [h2]

theorem wrappedJson_failGlobal (rs : List (Nat × ZodT)) (g : RespHandler)
    (req : Req) (fuel : Nat) (st : InterceptSt) (body : JVal)
    (z : ZodT) (err : ZodError)
    (h1 : lookupStatus rs st.current = some z) (h2 : z.parse body = .error err) :
    wrappedJson rs none (some g) req fuel st body =
      g (.response st.current err req body) st := by
  conv_lhs => rw [wrappedJson]
  rw [h1]
  simp [h2]

theorem wrappedJson_failDefaultStep (rs : List (Nat × ZodT)) (req : Req) (n : Nat)
    (st : InterceptSt) (body : JVal) (z : ZodT) (err : ZodError)
    (h1 : lookupStatus rs st.current = some z) (h2 : z.parse body = .error err) :
    wrappedJson rs none none req (n + 1) st body =
      wrappedJson rs none none req n (wrappedStatus 500 st)
        (errBody "Internal error: server response does not match expected schema." err) := by
  conv_lhs => rw [wrappedJson]
  rw [h1]
  simp [h2, defaultEmission]

theorem wrappedJson_failDefaultZero (rs : List (Nat × ZodT)) (req : Req)
    (st : InterceptSt) (body : JVal) (z : ZodT) (err : ZodError)
    (h1 : lookupStatus rs st.current = some z) (h2 : z.parse body = .error err) :
    wrappedJson rs none none req 0 st body = st := by
  conv_lhs => rw [wrappedJson]
  rw [h1]
  simp [h2]

theorem rs500_loop_no_emit (fuel : Nat) : ∀ (st : InterceptSt) (body : JVal),
    st.current = 500 →
    (wrappedJson rs500 none none req0 fuel st body).res.transmitted = st.res.transmitted := by
  induction fuel with
  | zero =>
    intro st body h
    have h1 : lookupStatus rs500 st.current = some (zFail err1) := by rw [h]; rfl
    rw [wrappedJson_failDefaultZero rs500 req0 st body (zFail err1) err1 h1 rfl]
  | succ n ih =>
    intro st body h
    have h1 : lookupStatus rs500 st.current = some (zFail err1) := by rw [h]; rfl
    rw [wrappedJson_failDefaultStep rs500 req0 n st body (zFail err1) err1 h1 rfl]
    rw [ih (wrappedStatus 500 st) _ rfl]
    rfl

/-! ## Claim theorems -/

/-- C6: the translator is total and never raises — an absent schema yields
an absent fragment, every present node yields a fragment, and any node
whose kind tag is not recognized yields an unconstrained string fragment
(with its description attached when present) instead of failing. -/
theorem c6_translator_total_and_degrades :
    zodSchemaToOpenAPISchema none = none ∧
    (∀ n : SchemaNode, (zodSchemaToOpenAPISchema (some n)).isSome = true) ∧
    (∀ tag : String, translateNode (.mk none (.zother tag)) = [("type", JVal.str "string")]) ∧
    (∀ (tag s : String), translateNode (.mk (some s) (.zother tag)) =
        [("type", JVal.str "string"), ("description", JVal.str s)]) :=
  ⟨rfl, fun _ => rfl, fun _ => rfl, fun _ _ => rfl⟩

/-- C7: for every schema node `n`, the kind-derived fields of the translated
fragment (everything except the `nullable` and `description` display fields)
are invariant under the order and number of optional/nullable wrapper layers
stacked on `n`; in particular, translating `optional(nullable(string))` and
`nullable(optional(string))` both yield a string fragment with `nullable`
set to true. -/
theorem c7_wrapper_stack_invariance :
    (∀ (ws : List WrapLayer) (n : SchemaNode),
        stripDisplayFields (translateNode (stackWrappers ws n)) =
          stripDisplayFields (translateNode n)) ∧
    translateNode (.mk none (.zoptional (.mk none (.znullable (.mk none (.zstring [])))))) =
      [("type", JVal.str "string"), ("nullable", JVal.bool true)] ∧
    translateNode (.mk none (.znullable (.mk none (.zoptional (.mk none (.zstring [])))))) =
      [("type", JVal.str "string"), ("nullable", JVal.bool true)] := by
  refine ⟨?_, rfl, rfl⟩
  intro ws n
  induction ws with
  | nil => rfl
  | cons w t ih =>
    cases w with
    | wopt d =>
      simp only [stackWrappers, applyWrap, translateNode, translateKind]
      rw [strip_attachDesc]
      exact ih
    | wnull d =>
      simp only [stackWrappers, applyWrap, translateNode, translateKind]
      rw [strip_attachDesc, strip_setKey_nullable]
      exact ih

/-- C2: error resolution tries the per-route handler first, else the global
handler, else the built-in default handler, first match winning; the default
handler produces the structured JSON error body with status 400 for any
request-segment failure and status 500 for a response-schema failure. The
last three parts tie the resolution chain to the pipeline's failure sites:
a failing body parse routes its classified error through `dispatchError`,
and a failing response parse invokes the per-route (respectively global)
handler when it is bound. -/
theorem c2_error_resolution_precedence :
    (∀ (h : EHandler) (g : Option EHandler) (e : VError) (req : Req) (res : Res),
        dispatchError (some h) g e req res = h e req res) ∧
    (∀ (g : EHandler) (e : VError) (req : Req) (res : Res),
        dispatchError none (some g) e req res = g e req res) ∧
    (∀ (e : VError) (req : Req) (res : Res),
        dispatchError none none e req res = defaultErrorHandler e req res) ∧
    (∀ (seg : Seg) (err : ZodError) (req erq : Req) (res : Res),
        defaultErrorHandler (.request seg err req) erq res =
          ⟨400, res.transmitted ++ [errBody (segMessage seg) err]⟩) ∧
    (∀ (code : Nat) (err : ZodError) (req erq : Req) (body : JVal) (res : Res),
        defaultErrorHandler (.response code err req body) erq res =
          ⟨500, res.transmitted ++
            [errBody "Internal error: server response does not match expected schema." err]⟩) ∧
    (∀ (s : RouteSchema) (z : ZodT) (rH gH : Option EHandler) (req : Req) (res : Res)
        (err : ZodError),
        s.files = none → s.body = some z → z.parse req.body = .error err →
        runRequestPhase s rH gH req res =
          .errored (dispatchError rH gH (.request .body err req) req res)) ∧
    (∀ (rs : List (Nat × ZodT)) (z : ZodT) (h : RespHandler) (gH : Option RespHandler)
        (req : Req) (fuel : Nat) (st : InterceptSt) (body : JVal) (err : ZodError),
        lookupStatus rs st.current = some z → z.parse body = .error err →
        wrappedJson rs (some h) gH req fuel st body =
          h (.response st.current err req body) st) ∧
    (∀ (rs : List (Nat × ZodT)) (z : ZodT) (g : RespHandler) (req : Req) (fuel : Nat)
        (st : InterceptSt) (body : JVal) (err : ZodError),
        lookupStatus rs st.current = some z → z.parse body = .error err →
        wrappedJson rs none (some g) req fuel st body =
          g (.response st.current err req body) st) := by
  refine ⟨fun h g e req res => rfl, fun g e req res => rfl, fun e req res => rfl,
    fun seg err req erq res => rfl, fun code err req erq body res => rfl, ?_, ?_, ?_⟩
  · intro s z rH gH req res err hf hb hp
    simp [runRequestPhase, hf, stepBody, hb, hp]
  · intro rs z h gH req fuel st body err h1 h2
    exact wrappedJson_failRoute rs h gH req fuel st body z err h1 h2
  · intro rs z g req fuel st body err h1 h2
    exact wrappedJson_failGlobal rs g req fuel st body z err h1 h2

/-- Witness for C2: a concrete failing body parse under default resolution,
and a concrete failing response parse resolved by a bound per-route
(respectively global) handler. -/
theorem c2_error_resolution_precedence_witness :
    runRequestPhase bodyFailSchema none none req0 res0 =
      .errored (dispatchError none none (.request .body err1 req0) req0 res0) ∧
    wrappedJson rs200 (some idRespHandler) none req0 3 (armInterceptor res0) badBody =
      idRespHandler (.response 200 zerrSuccess req0 badBody) (armInterceptor res0) ∧
    wrappedJson rs200 none (some idRespHandler) req0 3 (armInterceptor res0) badBody =
      idRespHandler (.response 200 zerrSuccess req0 badBody) (armInterceptor res0) :=
  ⟨c2_error_resolution_precedence.2.2.2.2.2.1 bodyFailSchema (zFail err1) none none req0 res0
      err1 rfl rfl rfl,
   c2_error_resolution_precedence.2.2.2.2.2.2.1 rs200 zSuccessBool idRespHandler none req0 3
      (armInterceptor res0) badBody zerrSuccess rfl rfl,
   c2_error_resolution_precedence.2.2.2.2.2.2.2 rs200 zSuccessBool idRespHandler req0 3
      (armInterceptor res0) badBody zerrSuccess rfl rfl⟩

/-- C3 (amended): when every declared segment parses successfully, the
request's body, query and params segments are replaced with the parsed
values before the handler runs; the headers segment, however, is merged via
`Object.assign` — parsed fields overwrite existing headers, but raw-only
header keys remain visible downstream. -/
theorem c3_segment_replacement :
    ∀ (s : RouteSchema) (zb zq zp zh : ZodT) (rH gH : Option EHandler) (req : Req)
      (res : Res) (b' q' p' h' : JVal),
      s.files = none → s.body = some zb → s.querystring = some zq →
      s.params = some zp → s.headers = some zh →
      zb.parse req.body = .ok b' → zq.parse req.query = .ok q' →
      zp.parse req.params = .ok p' → zh.parse (.obj req.headers) = .ok h' →
      runRequestPhase s rH gH req res =
        .passed { req with
          body := b',
          query := q',
          params := p',
          headers := objAssign req.headers (jfields h') } := by
  intro s zb zq zp zh rH gH req res b' q' p' h' hf hb hq hp hh pb pq pp ph
  obtain ⟨rb, rq, rp, rh, rfm, rff⟩ := req
  simp only [runRequestPhase, hf, stepBody, hb, stepQuery, hq, stepParams, hp,
    stepHeaders, hh] at *
  simp [pb, pq, pp, ph]

/-- Witness for C3: all four segments declared with parsers returning fixed
values; the resulting request carries the three replaced segments and the
merged headers. -/
theorem c3_segment_replacement_witness :
    runRequestPhase fullSchema none none req0 res0 =
      .passed { req0 with
        body := .str "B",
        query := .str "Q",
        params := .str "P",
        headers := objAssign req0.headers (jfields (.obj [("h", JVal.str "H")])) } :=
  c3_segment_replacement fullSchema (zConst (.str "B")) (zConst (.str "Q"))
    (zConst (.str "P")) (zConst (.obj [("h", .str "H")])) none none req0 res0 _ _ _ _
    rfl rfl rfl rfl rfl rfl rfl rfl rfl

/-- Counterexample for C3 as stated: the headers segment is not replaced by
the parsed value. The headers schema parses successfully to the empty
object, yet the downstream request still carries the raw-only header
`x-extra` — the observed segment differs from the parsed value. -/
theorem c3_counterexample_headers_merged_not_replaced :
    (runRequestPhase hdrSchema none none reqHdr res0 =
      .passed { reqHdr with headers := [("x-extra", JVal.str "1")] }) ∧
    ([("x-extra", JVal.str "1")] : Frag) ≠ ([] : Frag) :=
  ⟨rfl, List.cons_ne_nil _ _⟩

/-- C4: with declared file fields, the files-check runs before any other
validation step (the result does not depend on the other declared parsers),
collects every violation across all declared file fields, and reports them
together as one classified request-validation error whose single issue sits
on the synthetic `files` path (the error's segment tag reuses `body`, and
its one issue joins all collected violations in its message). -/
theorem c4_files_check_first_single_error :
    ∀ (s : RouteSchema) (cfgs : List (String × FileFieldConfig)) (rH gH : Option EHandler)
      (req : Req) (res : Res),
      s.files = some cfgs → fileViolations cfgs req ≠ [] →
      (runRequestPhase s rH gH req res =
        .errored (dispatchError rH gH
          (.request .body (filesZodError (fileViolations cfgs req)) req) req res) ∧
       (filesZodError (fileViolations cfgs req)).issues =
        [⟨"custom", "Missing required files: " ++
            String.intercalate ", " (fileViolations cfgs req), ["files"]⟩]) := by
  intro s cfgs rH gH req res hf hne
  have hempty : (fileViolations cfgs req).isEmpty = false := by
    cases hv : fileViolations cfgs req with
    | nil => exact absurd hv hne
    | cons a t => rfl
  exact ⟨by simp [runRequestPhase, hf, hempty], rfl⟩

/-- Witness for C4: a required `avatar` with no upload and a `docs` field
whose captured count exceeds its max-count produce one classified error
collecting both violations. -/
theorem c4_files_check_first_single_error_witness :
    runRequestPhase filesSchemaW none none reqFilesW res0 =
      .errored (dispatchError none none
        (.request .body (filesZodError (fileViolations filesCfgW reqFilesW)) reqFilesW)
        reqFilesW res0) ∧
    (filesZodError (fileViolations filesCfgW reqFilesW)).issues =
      [⟨"custom", "Missing required files: " ++
          String.intercalate ", " (fileViolations filesCfgW reqFilesW), ["files"]⟩] :=
  c4_files_check_first_single_error filesSchemaW filesCfgW none none reqFilesW res0 rfl
    (by decide)

/-- C5: when the handler emits a body for a status code with no registered
response schema, the body is passed to the original emission primitive
unchecked and unmodified and no error path is triggered (for any handlers);
end-to-end, a contract declaring only a 200 schema passes a 201 emission of
`{foo: 1}` through to the transport unmodified. -/
theorem c5_unregistered_status_passthrough :
    (∀ (rs : List (Nat × ZodT)) (rH gH : Option RespHandler) (req : Req) (fuel : Nat)
        (st : InterceptSt) (body : JVal),
      lookupStatus rs st.current = none →
      wrappedJson rs rH gH req fuel st body = ⟨st.current, plainJson body st.res⟩) ∧
    wrappedJson rs200 none none req0 9 (wrappedStatus 201 (armInterceptor res0)) fooBody =
      ⟨201, ⟨201, [fooBody]⟩⟩ :=
  ⟨fun rs rH gH req fuel st body h => wrappedJson_noSchema rs rH gH req fuel st body h,
   wrappedJson_noSchema rs200 none none req0 9 _ fooBody rfl⟩

/-- Witness for C5: an empty response record registers no schema for the
remembered status, so the emitted body reaches the transport unmodified. -/
theorem c5_unregistered_status_passthrough_witness :
    wrappedJson [] none none req0 0 (armInterceptor res0) fooBody =
      ⟨(armInterceptor res0).current, plainJson fooBody (armInterceptor res0).res⟩ :=
  c5_unregistered_status_passthrough.1 [] none none req0 0 (armInterceptor res0) fooBody rfl

/-- C10: the remembered status code is initialized to 200 when the
interceptor is armed, so a body emitted without any set-status call is
validated against the schema registered for 200 (passing through on
success, routed to resolution on failure), and only an explicit set-status
call changes which per-status schema applies. -/
theorem c10_interceptor_initial_status_200 :
    (∀ res : Res, armInterceptor res = ⟨200, res⟩) ∧
    (∀ (c : Nat) (st : InterceptSt), (wrappedStatus c st).current = c) ∧
    (∀ (rs : List (Nat × ZodT)) (z : ZodT) (rH gH : Option RespHandler) (req : Req)
        (fuel : Nat) (res : Res) (body v : JVal),
      lookupStatus rs 200 = some z → z.parse body = .ok v →
      wrappedJson rs rH gH req fuel (armInterceptor res) body = ⟨200, plainJson body res⟩) ∧
    (∀ (rs : List (Nat × ZodT)) (z : ZodT) (h : RespHandler) (gH : Option RespHandler)
        (req : Req) (fuel : Nat) (res : Res) (body : JVal) (err : ZodError),
      lookupStatus rs 200 = some z → z.parse body = .error err →
      wrappedJson rs (some h) gH req fuel (armInterceptor res) body =
        h (.response 200 err req body) (armInterceptor res)) := by
  refine ⟨fun res => rfl, fun c st => rfl, ?_, ?_⟩
  · intro rs z rH gH req fuel res body v h1 h2
    exact wrappedJson_okBody rs rH gH req fuel (armInterceptor res) body v z h1 h2
  · intro rs z h gH req fuel res body err h1 h2
    exact wrappedJson_failRoute rs h gH req fuel (armInterceptor res) body z err h1 h2

/-- Witness for C10: with only a 200 schema declared and no set-status
call, a conforming body passes through validated, and a non-conforming one
is handed to the bound handler tagged with status 200. -/
theorem c10_interceptor_initial_status_200_witness :
    wrappedJson rs200 none none req0 0 (armInterceptor res0) (.obj [("success", .bool true)]) =
      ⟨200, plainJson (.obj [("success", JVal.bool true)]) res0⟩ ∧
    wrappedJson rs200 (some idRespHandler) none req0 0 (armInterceptor res0) badBody =
      idRespHandler (.response 200 zerrSuccess req0 badBody) (armInterceptor res0) :=
  ⟨c10_interceptor_initial_status_200.2.2.1 rs200 zSuccessBool none none req0 0 res0
      (.obj [("success", .bool true)]) (.obj [("success", .bool true)]) rfl rfl,
   c10_interceptor_initial_status_200.2.2.2 rs200 zSuccessBool idRespHandler none req0 0 res0
      badBody zerrSuccess rfl rfl⟩

/-- C1 (amended): when an emitted body fails the schema registered for the
remembered status code, the non-conforming body is never handed to the
original emission primitive; under default resolution, provided the
contract does not register a 500 schema that rejects the default error body
(either no schema is registered for 500, or the registered 500 schema
accepts that error body), the outgoing response has status 500 and exactly
the generic-message error body is transmitted. If a declared 500 schema
rejects the default error body, resolution re-enters and no response is
emitted (see the counterexample). -/
theorem c1_response_validation_default_resolution :
    ∀ (rs : List (Nat × ZodT)) (z : ZodT) (req : Req) (st : InterceptSt) (body : JVal)
      (err : ZodError) (n : Nat),
      lookupStatus rs st.current = some z → z.parse body = .error err →
      (lookupStatus rs 500 = none ∨
        ∃ (z2 : ZodT) (v : JVal), lookupStatus rs 500 = some z2 ∧
          z2.parse (errBody "Internal error: server response does not match expected schema."
            err) = .ok v) →
      wrappedJson rs none none req (n + 1) st body =
        ⟨500, ⟨500, st.res.transmitted ++
          [errBody "Internal error: server response does not match expected schema." err]⟩⟩ := by
  intro rs z req st body err n h1 h2 h3
  rw [wrappedJson_failDefaultStep rs req n st body z err h1 h2]
  rcases h3 with h3 | ⟨z2, v, h3, h4⟩
  · rw [wrappedJson_noSchema rs none none req n (wrappedStatus 500 st) _ h3]
    rfl
  · rw [wrappedJson_okBody rs none none req n (wrappedStatus 500 st) _ v z2 h3 h4]
    rfl

/-- Witness for C1, covering both arms of the side condition: the spec's
example — `{success: "yes"}` emitted at the remembered status 200 against
the `{success: boolean}` schema — under a contract with no 500 schema, and
again under a contract whose 500 schema accepts the default error body; in
both runs the bad body is never transmitted and default resolution emits
status 500 with the generic message. -/
theorem c1_response_validation_default_resolution_witness :
    wrappedJson rs200 none none req0 1 (armInterceptor res0) badBody =
      ⟨500, ⟨500, [errBody "Internal error: server response does not match expected schema."
        zerrSuccess]⟩⟩ ∧
    wrappedJson rs200and500 none none req0 1 (armInterceptor res0) badBody =
      ⟨500, ⟨500, [errBody "Internal error: server response does not match expected schema."
        zerrSuccess]⟩⟩ :=
  ⟨c1_response_validation_default_resolution rs200 zSuccessBool req0 (armInterceptor res0)
      badBody zerrSuccess 0 rfl rfl (Or.inl rfl),
   c1_response_validation_default_resolution rs200and500 zSuccessBool req0 (armInterceptor res0)
      badBody zerrSuccess 0 rfl rfl (Or.inr ⟨zAcceptAll,
        errBody "Internal error: server response does not match expected schema." zerrSuccess,
        rfl, rfl⟩)⟩

/-- Counterexample for C1 as stated: a contract declaring a rejecting 500
response schema. The handler sets status 500 and emits a failing body;
default resolution re-enters through the wrapped primitives, the default
error body is itself rejected by the 500 schema at every round, and after
99 resolution rounds nothing has been transmitted — contrary to the claim
that the outgoing response carries the generic 500 message (the adjacent
lemma shows the transmitted list stays empty at every re-entry depth). -/
theorem c1_counterexample_500_schema_rejects_error_body :
    (wrappedJson rs500 none none req0 99
      (wrappedStatus 500 (armInterceptor res0)) (JVal.str "bad")).res.transmitted = [] := by
  rw [rs500_loop_no_emit 99 (wrappedStatus 500 (armInterceptor res0)) (JVal.str "bad") rfl]
  rfl

/-- C8: for every contract whose params schema is an object, document
generation extracts exactly one path parameter per object field, each with
`required` true regardless of the field's own optionality; the colon
path segment is rewritten to the bracketed form, and the `/items/:id`
round-trip with an optional `id` field yields the path key `/items/{id}`
with exactly one parameter named `id`, required, with a string fragment. -/
theorem c8_path_parameters_required_and_bracketed :
    (∀ (z : ZodT) (d : Option String) (fields : List (String × SchemaNode)),
        z.node = .mk d (.zobject fields) →
        ((extractParameters (some z) "path").map (fun p => p.name) =
            fields.map (fun kv => kv.1) ∧
         ∀ p ∈ extractParameters (some z) "path", p.required = true)) ∧
    rewritePath "/items/:id" = "/items/{id}" ∧
    generateOpenAPISpecPaths ""
        (registerRoute emptyRouter "GET" "/items/:id" itemsSchema).metadata =
      [("/items/{id}",
        [{ name := "id", location := "path", required := true,
           schema := [("type", JVal.str "string")], description := none }])] := by
  refine ⟨?_, by decide, rfl⟩
  intro z d fields h
  obtain ⟨node, parse⟩ := z
  simp only at h
  subst h
  constructor
  · simp [extractParameters, List.map_map]
  · intro p hp
    simp only [extractParameters, List.mem_map] at hp
    obtain ⟨kv, hkv, hpe⟩ := hp
    rw [← hpe]
    simp

/-- Witness for C8: the `/items/:id` contract's params object with its
optional `id` field yields exactly the parameter name list `["id"]`, every
extracted path parameter required. -/
theorem c8_path_parameters_required_and_bracketed_witness :
    (extractParameters (some itemsParams) "path").map (fun p => p.name) =
        [("id", idFieldNode)].map (fun kv => kv.1) ∧
    ∀ p ∈ extractParameters (some itemsParams) "path", p.required = true :=
  c8_path_parameters_required_and_bracketed.1 itemsParams none [("id", idFieldNode)] rfl

/-- C9: a contract declared with hide set to true is never pushed to the
registry, so the generated document's paths are unchanged by its
registration (zero occurrences of the route), yet its validation middleware
is installed on the router, and the validation pipeline's behavior is
independent of the hide flag; concretely, a request to a hidden route with
a rejecting body schema is still rejected with the default 400 emission. -/
theorem c9_hidden_routes_undocumented_still_enforced :
    (∀ (st : RouterSt) (method path : String) (s : RouteSchema), s.hide = true →
      ((registerRoute st method path s).metadata = st.metadata ∧
       (registerRoute st method path s).installed = st.installed ++ [⟨method, path, s⟩] ∧
       generateOpenAPISpecPaths "" (registerRoute st method path s).metadata =
         generateOpenAPISpecPaths "" st.metadata ∧
       ∀ (rH gH : Option EHandler) (req : Req) (res : Res),
         runRequestPhase s rH gH req res =
           runRequestPhase { s with hide := false } rH gH req res)) ∧
    runRequestPhase hiddenFailSchema none none req0 res0 =
      .errored ⟨400, [errBody (segMessage .body) err1]⟩ := by
  constructor
  · intro st method path s hh
    refine ⟨by simp [registerRoute, hh], rfl, by simp [registerRoute, hh], ?_⟩
    intro rH gH req res
    obtain ⟨b, q, p, hd, r, f, hid⟩ := s
    rfl
  · rfl

/-- Witness for C9: registering a hidden contract leaves the registry and
the generated paths unchanged, installs the route with its bound contract,
and runs the same validation as the unhidden contract. -/
theorem c9_hidden_routes_undocumented_still_enforced_witness :
    (registerRoute emptyRouter "GET" "/secret" hiddenFailSchema).metadata =
        emptyRouter.metadata ∧
    (registerRoute emptyRouter "GET" "/secret" hiddenFailSchema).installed =
        emptyRouter.installed ++ [⟨"GET", "/secret", hiddenFailSchema⟩] ∧
    generateOpenAPISpecPaths ""
        (registerRoute emptyRouter "GET" "/secret" hiddenFailSchema).metadata =
      generateOpenAPISpecPaths "" emptyRouter.metadata ∧
    runRequestPhase hiddenFailSchema none none req0 res0 =
      runRequestPhase { hiddenFailSchema with hide := false } none none req0 res0 := by
  have h := c9_hidden_routes_undocumented_still_enforced.1 emptyRouter "GET" "/secret"
    hiddenFailSchema rfl
  exact ⟨h.1, h.2.1, h.2.2.1, h.2.2.2 none none req0 res0⟩

end EZOT
